import Mathlib

/-!
Shallow embedding of `advanced_md_analysis.py` and proofs about its reader
(`read_xvg`) and statistical summarizer (`plot_with_stats`, `create_box_plots`).

Files are modelled as lists of lines; a line is processed through its character
list.  Numeric values are exact rationals (`ℚ`); the IEEE special values that
`scipy.stats.ttest_ind` can produce when the pooled variance vanishes are
modelled by an explicit extended-value type.  NumPy's `np.array(data_lines)`
conversion is modelled by `npArray` (a rectangular row list passes through as
the 2-D array's rows, a ragged one raises `ValueError` as in NumPy 1.24+), and
2-D column indexing `data[:, j]` by a fallible operation that fails on a
zero-row (one-dimensional) array, exactly as in NumPy.
-/

namespace MDA

/-- The double-quote character (ASCII 34). -/
def quoteChar : Char := Char.ofNat 34

/-- Python `str.strip()` on the character list of a line. -/
def stripL (cs : List Char) : List Char :=
  ((cs.dropWhile Char.isWhitespace).reverse.dropWhile Char.isWhitespace).reverse

/-- Python `str.startswith(c)` for a one-character marker. -/
def startsC (c : Char) : List Char → Bool
  | [] => false
  | d :: _ => d = c

/-- State machine for Python `line.split()` (split on whitespace runs, no empty
tokens); `acc` holds the characters of the current token, reversed. -/
def tokensAux : List Char → List Char → List (List Char)
  | [], acc => if acc.isEmpty then [] else [acc.reverse]
  | c :: cs, acc =>
    if c.isWhitespace then
      if acc.isEmpty then tokensAux cs [] else acc.reverse :: tokensAux cs []
    else tokensAux cs (c :: acc)

/-- Python `line.split()`. -/
def tokensL (cs : List Char) : List (List Char) := tokensAux cs []

/-- State machine for Python `line.split('"')`. -/
def splitQAux : List Char → List Char → List (List Char)
  | [], acc => [acc.reverse]
  | c :: cs, acc =>
    if c = quoteChar then acc.reverse :: splitQAux cs [] else splitQAux cs (c :: acc)

/-- Python `line.split('"')`: the pieces between double quotes, empty pieces kept. -/
def splitQ (cs : List Char) : List (List Char) := splitQAux cs []

/-- Does `hay` start with `needle`? -/
def startsWithL : List Char → List Char → Bool
  | [], _ => true
  | _ :: _, [] => false
  | a :: as, b :: bs => a = b && startsWithL as bs

/-- Python substring membership `needle in hay`. -/
def containsL (needle : List Char) : List Char → Bool
  | [] => startsWithL needle []
  | c :: cs => startsWithL needle (c :: cs) || containsL needle cs

/-- Numeric value of a digit run. -/
def digitsToNat (ds : List Char) : ℕ := ds.foldl (fun a c => 10 * a + (c.toNat - 48)) 0

/-- Exponent tail of a float literal: the digits after `e`/`E` and an optional sign. -/
def expTail (mant : ℚ) (pos : Bool) (cs : List Char) : Option ℚ :=
  if cs.isEmpty then none
  else if cs.all Char.isDigit then
    some (if pos then mant * 10 ^ digitsToNat cs else mant / 10 ^ digitsToNat cs)
  else none

/-- Body of a float literal after the sign: integer digits, an optional fractional
part, and an optional exponent; `none` when nothing numeric is present or trailing
characters remain. -/
def floatBody (sgn : ℚ) (cs : List Char) : Option ℚ :=
  let ip := cs.takeWhile Char.isDigit
  let r1 := cs.dropWhile Char.isDigit
  let fr : List Char × List Char :=
    match r1 with
    | '.' :: t => (t.takeWhile Char.isDigit, t.dropWhile Char.isDigit)
    | _ => ([], r1)
  if ip.isEmpty && fr.1.isEmpty then none
  else
    let mant : ℚ := sgn * ((digitsToNat ip : ℚ) + (digitsToNat fr.1 : ℚ) / 10 ^ fr.1.length)
    match fr.2 with
    | [] => some mant
    | e :: r3 =>
      if e = 'e' || e = 'E' then
        match r3 with
        | '+' :: r4 => expTail mant true r4
        | '-' :: r4 => expTail mant false r4
        | r4 => expTail mant true r4
      else none

/-- Python `float(token)` on a whitespace-split token, as an exact rational.
Finite decimal literals (optional sign, digits, fraction, exponent) are accepted;
the special spellings `inf`/`nan` and underscore digit separators, which have no
exact rational value or do not occur in the data files, are not modelled. -/
def pyFloat : List Char → Option ℚ
  | '+' :: r => floatBody 1 r
  | '-' :: r => floatBody (-1) r
  | r => floatBody 1 r

/-- `[float(x) for x in toks]` in the option monad: the `ValueError` raised by the
first unparsable token makes the whole line fail. -/
def mapMOpt {α β : Type} (f : α → Option β) : List α → Option (List β)
  | [] => some []
  | a :: l =>
    match f a, mapMOpt f l with
    | some b, some bs => some (b :: bs)
    | _, _ => none

/-- The metadata record built by `read_xvg`. -/
structure Metadata where
  title : String
  xlabel : String
  ylabel : String

/-- `metadata = {'title': '', 'xlabel': '', 'ylabel': ''}`. -/
def Metadata.empty : Metadata := ⟨"", "", ""⟩

/-- One `@`-line of `read_xvg`: look for the keys `title`, `xaxis` + `label`,
`yaxis` + `label` in the lowercased line and store `line.split('"')[1]`; an
out-of-range index (no double quote on the line) is the swallowed `IndexError`
of the source, leaving the field unchanged. -/
def annotUpdate (md : Metadata) (line : List Char) : Metadata :=
  let low := line.map Char.toLower
  if containsL "title".data low then
    match (splitQ line).get? 1 with
    | some v => { md with title := String.mk v }
    | none => md
  else if containsL "xaxis".data low && containsL "label".data low then
    match (splitQ line).get? 1 with
    | some v => { md with xlabel := String.mk v }
    | none => md
  else if containsL "yaxis".data low && containsL "label".data low then
    match (splitQ line).get? 1 with
    | some v => { md with ylabel := String.mk v }
    | none => md
  else md

/-- The reader loop of `read_xvg` over the lines of the file: strip each line,
skip blank and `#` lines, fold `@` lines into the metadata, parse every other
line as a whitespace-separated row of floats and keep the rows that fully parse. -/
def readRows (md : Metadata) : List String → List (List ℚ) × Metadata
  | [] => ([], md)
  | raw :: rest =>
    let line := stripL raw.data
    if line.isEmpty || startsC '#' line then readRows md rest
    else if startsC '@' line then readRows (annotUpdate md line) rest
    else
      match mapMOpt pyFloat (tokensL line) with
      | some vs =>
        let r := readRows md rest
        (vs :: r.1, r.2)
      | none => readRows md rest

/-- The parse loop of `read_xvg` (source lines 39-65): the `data_lines` row list
and the metadata record.  The `np.array(data_lines)` conversion of line 66 is
modelled separately by `npArray`; on the rectangular (or zero-row) row lists all
the summarizer claims concern, that conversion returns the row list unchanged,
so there `read_xvg` is the reader's full result. -/
def read_xvg (lines : List String) : List (List ℚ) × Metadata :=
  readRows Metadata.empty lines

/-- `np.array(data_lines)` (source line 66) as in NumPy 1.24 and later: a
rectangular row list — all rows the same width, including the zero-row case,
which builds the one-dimensional empty array — yields the array's rows
unchanged, while a ragged row list raises `ValueError`.  (NumPy older than 1.24
instead built a one-dimensional object array, which no downstream two-index
access survives; on no version does a ragged table flow through.) -/
def npArray (rows : List (List ℚ)) : Except String (List (List ℚ)) :=
  if rows.all (fun r => r.length = (rows.headD []).length) then .ok rows
  else .error "ValueError"

/-- The full `read_xvg` including the `np.array(data_lines)` conversion: on a
file whose numeric lines mix widths the reader itself raises `ValueError`. -/
def read_xvg_np (lines : List String) : Except String (List (List ℚ) × Metadata) :=
  match npArray (read_xvg lines).1 with
  | .ok rows => .ok (rows, (read_xvg lines).2)
  | .error e => .error e

/-- A files dict: condition keys with, for each, either the lines of the existing
file at that path or `none` when `filepath.exists()` is false. -/
abbrev FilesDict := List (String × Option (List String))

/-- The module-level `LABELS` table.  Every caller passes only the three fixed
keys, so the lookup (a `KeyError` on other keys) is modelled as total. -/
def LABELS : String → String
  | "apo" => "Apo"
  | "test" => "Berberine"
  | "standard" => "Acarbose"
  | _ => ""

/-- Column `j` of a row list: `r[j]` per row (`getD` with junk default; only used
where every row is long enough). -/
def col (rows : List (List ℚ)) (j : ℕ) : List ℚ := rows.map (fun r => r.getD j 0)

/-- NumPy column indexing `data[:, j]` on an array built from a rectangular or
zero-row row list (the only lists `npArray` lets through): with zero rows the
array is one-dimensional and two-index access raises `IndexError`; a width too
small for `j` also raises; otherwise the column is returned.  On a ragged row
list — which in the real pipeline never reaches this point, `np.array` having
already failed — the value of this model is junk and no theorem relies on it. -/
def npCol (rows : List (List ℚ)) (j : ℕ) : Except String (List ℚ) :=
  if rows.isEmpty then .error "IndexError"
  else if rows.all (fun r => j < r.length) then .ok (col rows j) else .error "IndexError"

/-- The `len(values)//2 :` slice: the equilibrated window (trailing half). -/
def eqWindow {α : Type} (l : List α) : List α := l.drop (l.length / 2)

/-- `np.mean` of a rational list. -/
def mean (l : List ℚ) : ℚ := l.sum / l.length

/-- The observation set a present series contributes: column 1 scaled by the
conversion factor, then the equilibrated window. -/
def seriesWindow (content : List String) (c : ℚ) : List ℚ :=
  eqWindow ((col (read_xvg content).1 1).map (fun v => v * c))

/-- The computational content of `plot_with_stats`: walk the files dict in order,
skip absent files, read each present file, index column 0 (the time axis, whose
optional `/1000` rescaling cannot fail and feeds only the plot) and column 1
(`IndexError`s propagate), and collect `(LABELS[key], np.mean(y[len(y)//2:]))`
for the scaled y values; the rendering calls are dropped. -/
def plot_with_stats : FilesDict → ℚ → Bool → Except String (List (String × ℚ))
  | [], _, _ => .ok []
  | (_, none) :: rest, c, tns => plot_with_stats rest c tns
  | (key, some content) :: rest, c, tns =>
    match npCol (read_xvg content).1 0 with
    | .error e => .error e
    | .ok _ =>
      match npCol (read_xvg content).1 1 with
      | .error e => .error e
      | .ok col1 =>
        match plot_with_stats rest c tns with
        | .error e => .error e
        | .ok ms => .ok ((LABELS key, mean (eqWindow (col1.map (fun v => v * c)))) :: ms)

/-- The distribution-collection loop of `create_box_plots`: the equilibrated
window of the scaled y column of every present series, in dict order (the labels
and colors collected alongside feed only the rendering). -/
def boxData : FilesDict → ℚ → Except String (List (List ℚ))
  | [], _ => .ok []
  | (_, none) :: rest, c => boxData rest c
  | (_, some content) :: rest, c =>
    match npCol (read_xvg content).1 1 with
    | .error e => .error e
    | .ok col1 =>
      match boxData rest c with
      | .error e => .error e
      | .ok ds => .ok (eqWindow (col1.map (fun v => v * c)) :: ds)

/-- Sample variance with `ddof = 1`, as inside `scipy.stats.ttest_ind`. -/
def sampleVar (l : List ℚ) : ℚ :=
  ((l.map (fun x => (x - mean l) ^ 2)).sum) / ((l.length : ℚ) - 1)

/-- The squared denominator of the pooled (equal-variance) two-sample t
statistic: `sp2 * (1/n1 + 1/n2)` with `sp2` the pooled variance. -/
def pooledDSq (a b : List ℚ) : ℚ :=
  ((((a.length : ℚ) - 1) * sampleVar a + ((b.length : ℚ) - 1) * sampleVar b) /
      ((a.length + b.length - 2 : ℕ) : ℚ)) * ((a.length : ℚ)⁻¹ + (b.length : ℚ)⁻¹)

/-- IEEE-754 style extended value for the test outputs: `scipy` computes in
floats, where a zero denominator yields `±inf` or `nan`. -/
inductive PyVal where
  | fin : ℝ → PyVal
  | pinf : PyVal
  | ninf : PyVal
  | nan : PyVal

/-- Density of Student's t distribution with `ν` degrees of freedom. -/
noncomputable def tPDF (ν : ℕ) (x : ℝ) : ℝ :=
  Real.Gamma (((ν : ℝ) + 1) / 2) / (Real.sqrt (ν * Real.pi) * Real.Gamma ((ν : ℝ) / 2)) *
    (1 + x ^ 2 / ν) ^ (-(((ν : ℝ) + 1) / 2))

/-- Survival function of Student's t distribution. -/
noncomputable def tSF (ν : ℕ) (x : ℝ) : ℝ := ∫ u in Set.Ioi x, tPDF ν u

/-- The t statistic in the nondegenerate case. -/
noncomputable def tStatVal (a b : List ℚ) : ℝ :=
  ((mean a - mean b : ℚ) : ℝ) / Real.sqrt ((pooledDSq a b : ℚ) : ℝ)

/-- `scipy.stats.ttest_ind(a, b)` with the default `equal_var=True`: the Student
statistic and the two-sided p-value `2 * sf(|t|)` for `n1+n2-2` degrees of
freedom.  A zero pooled denominator follows IEEE float division: `±inf`
statistic with p-value `0` for distinct means (the survival function vanishes at
infinity), `nan` for equal means. -/
noncomputable def ttest_ind (a b : List ℚ) : PyVal × PyVal :=
  if pooledDSq a b = 0 then
    if mean a = mean b then (.nan, .nan)
    else if mean b < mean a then (.pinf, .fin 0) else (.ninf, .fin 0)
  else
    (.fin (tStatVal a b), .fin (2 * tSF (a.length + b.length - 2) |tStatVal a b|))

/-- The presentational flag `p_val < 0.05` (Python float comparison: false on
`nan` and `+inf`). -/
def significant : PyVal → Prop
  | .fin x => x < 0.05
  | .ninf => True
  | _ => False

/-- `create_box_plots`: collect the present series' equilibrated windows; when at
least two are present run the single test `stats.ttest_ind(data_list[1],
data_list[0])`, otherwise run no test. -/
noncomputable def create_box_plots (files : FilesDict) (c : ℚ) :
    Except String (Option (PyVal × PyVal)) :=
  match boxData files c with
  | .error e => .error e
  | .ok ds =>
    if 2 ≤ ds.length then .ok (some (ttest_ind (ds.getD 1 []) (ds.getD 0 []))) else .ok none

/-- The present (existing-file) entries of a files dict, in insertion order. -/
def presentFiles (files : FilesDict) : List (String × List String) :=
  files.filterMap (fun p => p.2.map (fun content => (p.1, content)))

/-- A parsed matrix on which the column indexing of the summarizers succeeds:
at least one row, every row at least two columns. -/
def validRows (rows : List (List ℚ)) : Bool :=
  !rows.isEmpty && rows.all (fun r => 2 ≤ r.length)

/-- A files-dict entry the summarizers can process without an `IndexError`:
absent, or parsing to a valid matrix. -/
def validEntry (p : String × Option (List String)) : Bool :=
  match p.2 with
  | none => true
  | some content => validRows (read_xvg content).1

/-- The Bool form of the claim-side line classification: non-blank after
stripping, not a `#` comment, not an `@` annotation, and every
whitespace-split token parses as a float. -/
def isDataLine (raw : String) : Bool :=
  !(stripL raw.data).isEmpty && !startsC '#' (stripL raw.data) &&
    !startsC '@' (stripL raw.data) &&
    (tokensL (stripL raw.data)).all (fun t => (pyFloat t).isSome)

/-- The ten-row example file: rows `i, 2*i` for `i = 0..9`. -/
def tenRowFile : List String :=
  ["0 0", "1 2", "2 4", "3 6", "4 8", "5 10", "6 12", "7 14", "8 16", "9 18"]

/-- Eight rows whose y value is constantly 1. -/
def onesFile : List String := List.replicate 8 "0 1"

/-- Eight rows whose y value is constantly 5. -/
def fivesFile : List String := List.replicate 8 "0 5"

/-- A present file with no numeric line: its parsed matrix has zero rows. -/
def commentOnlyFile : List String := ["# comment only"]

/-- Numeric lines of three different widths. -/
def raggedFile : List String := ["1.0 2.0", "3 4 5", "6"]

/-- Two present series whose equilibrated windows are `[1,1,1,1]` and `[5,5,5,5]`. -/
def pairFiles : FilesDict := [("apo", some onesFile), ("test", some fivesFile)]

/-- One present series that parses to an empty matrix. -/
def emptySeriesFiles : FilesDict := [("apo", some commentOnlyFile)]

/-- A dict with exactly one present series, the ten-row example. -/
def singleFiles : FilesDict := [("test", some tenRowFile)]

/-- An annotation line whose closing quote is missing. -/
def openQuoteLine : String := "@ title " ++ String.mk [quoteChar] ++ "Hello"

/-- A well-formed annotation line with both quotes and trailing text. -/
def closedQuoteLine : String :=
  "@ title " ++ String.mk [quoteChar] ++ "Hi" ++ String.mk [quoteChar] ++ " x"

/-- An annotation line with a recognized key but no double quote at all. -/
def noQuoteLine : String := "@ title noquote"

lemma mapMOpt_isSome {α β : Type} (f : α → Option β) :
    ∀ l : List α, (mapMOpt f l).isSome = l.all (fun a => (f a).isSome)
  | [] => rfl
  | a :: l => by
    have ih := mapMOpt_isSome f l
    cases hf : f a <;> cases hm : mapMOpt f l <;>
      simp_all [mapMOpt, hf, hm, List.all_cons]

lemma readRows_length :
    ∀ (lines : List String) (md : Metadata),
      ((readRows md lines).1).length = lines.countP isDataLine
  | [], _ => rfl
  | raw :: rest, md => by
    simp only [readRows, List.countP_cons]
    by_cases h1 : ((stripL raw.data).isEmpty || startsC '#' (stripL raw.data)) = true
    · rw [if_pos h1]
      have hd : isDataLine raw = false := by
        rcases Bool.or_eq_true_iff.mp h1 with h | h <;> simp [isDataLine, h]
      rw [readRows_length rest md, hd]
      simp
    · rw [if_neg h1]
      by_cases h2 : startsC '@' (stripL raw.data) = true
      · rw [if_pos h2]
        have hd : isDataLine raw = false := by simp [isDataLine, h2]
        rw [readRows_length rest (annotUpdate md (stripL raw.data)), hd]
        simp
      · rw [if_neg h2]
        cases hm : mapMOpt pyFloat (tokensL (stripL raw.data)) with
        | some vs =>
          have hall : (tokensL (stripL raw.data)).all (fun t => (pyFloat t).isSome) = true := by
            rw [← mapMOpt_isSome pyFloat, hm]; rfl
          have hd : isDataLine raw = true := by
            have h1f : ((stripL raw.data).isEmpty || startsC '#' (stripL raw.data)) = false :=
              Bool.not_eq_true _ ▸ (by simpa using h1)
            rcases Bool.or_eq_false_iff.mp h1f with ⟨ha, hb⟩
            simp [isDataLine, ha, hb, (by simpa using h2 : startsC '@' (stripL raw.data) = false),
              hall]
          simp only [List.length_cons, readRows_length rest md, hd, if_pos]
        | none =>
          have hall : (tokensL (stripL raw.data)).all (fun t => (pyFloat t).isSome) = false := by
            rw [← mapMOpt_isSome pyFloat, hm]; rfl
          have hd : isDataLine raw = false := by simp [isDataLine, hall]
          rw [readRows_length rest md, hd]
          simp

lemma sum_map_mul (l : List ℚ) (c : ℚ) : (l.map (fun v => v * c)).sum = l.sum * c := by
  induction l with
  | nil => simp
  | cons a l ih => simp [ih, add_mul]

lemma getD_map {α β : Type} (f : α → β) (d : α) (e : β) :
    ∀ (l : List α) (i : ℕ), i < l.length → (l.map f).getD i e = f (l.getD i d)
  | [], i, h => absurd h (by simp)
  | _ :: _, 0, _ => rfl
  | _ :: l, i + 1, h => getD_map f d e l i (by simpa using h)

lemma npCol_valid {rows : List (List ℚ)} (hv : validRows rows = true) {j : ℕ}
    (hj : j < 2) : npCol rows j = .ok (col rows j) := by
  unfold validRows at hv
  rw [Bool.and_eq_true, Bool.not_eq_true'] at hv
  unfold npCol
  rw [hv.1, if_neg (by simp)]
  rw [if_pos]
  rw [List.all_eq_true] at hv ⊢
  exact fun r hr => by
    have := hv.2 r hr
    simp only [decide_eq_true_eq] at this ⊢
    omega

lemma boxData_ok (files : FilesDict) (c : ℚ) (hv : files.all validEntry = true) :
    boxData files c = .ok ((presentFiles files).map (fun q => seriesWindow q.2 c)) := by
  induction files with
  | nil => rfl
  | cons p rest ih =>
    obtain ⟨k, o⟩ := p
    rw [List.all_cons, Bool.and_eq_true] at hv
    cases o with
    | none => simpa [boxData, presentFiles, List.filterMap_cons] using ih hv.2
    | some content =>
      have h1 : npCol (read_xvg content).1 1 = .ok (col (read_xvg content).1 1) :=
        npCol_valid hv.1 (by norm_num)
      simp [boxData, presentFiles, List.filterMap_cons, h1, ih hv.2, seriesWindow]

lemma plot_with_stats_ok (files : FilesDict) (c : ℚ) (tns : Bool)
    (hv : files.all validEntry = true) :
    plot_with_stats files c tns =
      .ok ((presentFiles files).map (fun q => (LABELS q.1, mean (seriesWindow q.2 c)))) := by
  induction files with
  | nil => rfl
  | cons p rest ih =>
    obtain ⟨k, o⟩ := p
    rw [List.all_cons, Bool.and_eq_true] at hv
    cases o with
    | none => simpa [plot_with_stats, presentFiles, List.filterMap_cons] using ih hv.2
    | some content =>
      have h0 : npCol (read_xvg content).1 0 = .ok (col (read_xvg content).1 0) :=
        npCol_valid hv.1 (by norm_num)
      have h1 : npCol (read_xvg content).1 1 = .ok (col (read_xvg content).1 1) :=
        npCol_valid hv.1 (by norm_num)
      simp [plot_with_stats, presentFiles, List.filterMap_cons, h0, h1, ih hv.2, seriesWindow]

/-- Claim C3: for any input file, the reader returns exactly one row per line that
is non-empty after stripping, is neither a `#` comment nor an `@` annotation, and
whose whitespace-split tokens all parse as floats; every other line contributes
no row. -/
theorem read_xvg_row_count (lines : List String) :
    ((read_xvg lines).1).length = lines.countP isDataLine :=
  readRows_length lines Metadata.empty

/-- Claim C4: for a non-empty series the equilibrated window is the suffix from
index `⌊N/2⌋`, its length is `N - ⌊N/2⌋ ≥ 1`, and a length-1 series has a
length-1 window. -/
theorem eqWindow_length_spec (l : List ℚ) (h : l ≠ []) :
    eqWindow l = l.drop (l.length / 2) ∧
    (eqWindow l).length = l.length - l.length / 2 ∧
    1 ≤ (eqWindow l).length ∧ (l.length = 1 → (eqWindow l).length = 1) := by
  have hpos : 0 < l.length := List.length_pos.mpr h
  refine ⟨rfl, by simp [eqWindow], ?_, ?_⟩ <;> simp [eqWindow] <;> omega

/-- Witness for C4 at the concrete series `[3, 4, 5]`. -/
theorem eqWindow_length_spec_check :
    (([3, 4, 5] : List ℚ) ≠ []) ∧
      (eqWindow ([3, 4, 5] : List ℚ) = ([3, 4, 5] : List ℚ).drop (([3, 4, 5] : List ℚ).length / 2) ∧
        (eqWindow ([3, 4, 5] : List ℚ)).length =
          ([3, 4, 5] : List ℚ).length - ([3, 4, 5] : List ℚ).length / 2 ∧
        1 ≤ (eqWindow ([3, 4, 5] : List ℚ)).length ∧
        (([3, 4, 5] : List ℚ).length = 1 → (eqWindow ([3, 4, 5] : List ℚ)).length = 1)) :=
  ⟨by decide, eqWindow_length_spec [3, 4, 5] (by decide)⟩

/-- Claim C5: scaling the y values commutes with taking the window, and the
trailing mean of the scaled series is the factor times the unscaled trailing
mean (the source scales before windowing; the first equation is the
commutation). -/
theorem convert_commutes_with_window (ys : List ℚ) (c : ℚ) (h : ys ≠ []) :
    eqWindow (ys.map (fun v => v * c)) = (eqWindow ys).map (fun v => v * c) ∧
    mean (eqWindow (ys.map (fun v => v * c))) = c * mean (eqWindow ys) := by
  have h1 : eqWindow (ys.map (fun v => v * c)) = (eqWindow ys).map (fun v => v * c) := by
    simp [eqWindow, List.map_drop]
  refine ⟨h1, ?_⟩
  rw [h1]
  unfold mean
  rw [sum_map_mul, List.length_map, mul_comm ((eqWindow ys).sum) c, mul_div_assoc]

/-- Witness for C5 at the series `[1, 2, 3, 4]` with factor 10. -/
theorem convert_commutes_with_window_check :
    (([1, 2, 3, 4] : List ℚ) ≠ []) ∧
      (eqWindow (([1, 2, 3, 4] : List ℚ).map (fun v => v * 10)) =
          (eqWindow ([1, 2, 3, 4] : List ℚ)).map (fun v => v * 10) ∧
        mean (eqWindow (([1, 2, 3, 4] : List ℚ).map (fun v => v * 10))) =
          10 * mean (eqWindow ([1, 2, 3, 4] : List ℚ))) :=
  ⟨by decide, convert_commutes_with_window [1, 2, 3, 4] 10 (by decide)⟩

/-- Counterexample to claim C10 as stated: on the file mixing numeric line widths
2, 3 and 1 the reader does not return a ragged table — the `np.array(data_lines)`
conversion raises `ValueError` (NumPy 1.24+), aborting `read_xvg`. -/
theorem ragged_file_read_raises :
    read_xvg_np raggedFile = .error "ValueError" := by
  with_unfolding_all rfl

set_option maxHeartbeats 1000000 in
/-- Claim C10 (amended): the parse loop enforces no fixed column count — on the
mixed-width file `data_lines` holds all three numeric rows, of widths 2, 3 and 1,
in order — but the `np.array(data_lines)` conversion then rejects the ragged row
list with `ValueError`, so the reader raises on a width-mixing file rather than
returning a ragged table; on a width-consistent file it returns all the rows. -/
theorem read_xvg_ragged_rejected :
    (read_xvg raggedFile).1 = [[1, 2], [3, 4, 5], [6]] ∧
    ((read_xvg raggedFile).1).map List.length = [2, 3, 1] ∧
    read_xvg_np raggedFile = .error "ValueError" ∧
    read_xvg_np tenRowFile = .ok (read_xvg tenRowFile) := by
  refine ⟨?_, ?_, ?_, ?_⟩ <;> with_unfolding_all rfl

/-- Counterexample to claim C9 as stated: on the ten-row file `i, 2*i` with scale
factor 10 the trailing mean of the scaled observable is 140, not 70. -/
theorem ten_row_mean_not_seventy :
    plot_with_stats singleFiles 10 true = .ok [("Berberine", 140)] ∧ (140 : ℚ) ≠ 70 :=
  ⟨by with_unfolding_all rfl, by norm_num⟩

/-- Claim C9 (amended): the ten-row file parses to a 10 × 2 matrix, the
equilibrated window is rows 5..9, and the trailing mean of the scaled observable
column is exactly 140. -/
theorem ten_row_end_to_end :
    ((read_xvg tenRowFile).1).length = 10 ∧
    ((read_xvg tenRowFile).1).map List.length = [2, 2, 2, 2, 2, 2, 2, 2, 2, 2] ∧
    eqWindow (read_xvg tenRowFile).1 = [[5, 10], [6, 12], [7, 14], [8, 16], [9, 18]] ∧
    plot_with_stats singleFiles 10 true = .ok [("Berberine", 140)] := by
  refine ⟨?_, ?_, ?_, ?_⟩ <;> with_unfolding_all rfl

/-- Counterexample to claim C7 as stated: on an annotation line whose closing
quote is missing the title is set to the text after the opening quote, not left
at the default empty string. -/
theorem missing_quote_sets_title :
    (read_xvg [openQuoteLine]).2.title = "Hello" ∧ ("Hello" : String) ≠ "" :=
  ⟨by with_unfolding_all rfl, by decide⟩

/-- Claim C7 (amended): a recognized annotation line with no double quote at all
leaves the field at its default empty string; with an opening quote the value is
the text up to the second quote or, when the closing quote is missing, to the
end of the line (the field is then set, not discarded); in every case the rest
of the file still parses. -/
theorem annot_quote_handling :
    (read_xvg [noQuoteLine, "1 2"]).2.title = "" ∧
    (read_xvg [openQuoteLine, "1 2"]).2.title = "Hello" ∧
    (read_xvg [closedQuoteLine, "1 2"]).2.title = "Hi" ∧
    (read_xvg [noQuoteLine, "1 2"]).1 = [[1, 2]] ∧
    (read_xvg [openQuoteLine, "1 2"]).1 = [[1, 2]] := by
  refine ⟨?_, ?_, ?_, ?_, ?_⟩ <;> with_unfolding_all rfl

/-- Claim C2 (showing the code bug): a present series whose file yields zero
numeric rows parses to an empty matrix, and both summarizers then fail with an
`IndexError` from the two-index access into the one-dimensional empty array
instead of excluding the series. -/
theorem summarizer_raises_on_empty_series :
    (read_xvg commentOnlyFile).1 = [] ∧
    plot_with_stats emptySeriesFiles 1 true = .error "IndexError" ∧
    boxData emptySeriesFiles 1 = .error "IndexError" ∧
    create_box_plots emptySeriesFiles 1 = .error "IndexError" := by
  refine ⟨?_, ?_, ?_, ?_⟩ <;> with_unfolding_all rfl

/-- Claim C6: with zero present series both summarizers produce no computed
output (and no test); with exactly one present series its trailing mean is still
computed but no t-test is run. -/
theorem few_present_series (files : FilesDict) (c : ℚ) (tns : Bool)
    (hv : files.all validEntry = true) :
    ((presentFiles files).length = 0 →
      plot_with_stats files c tns = .ok [] ∧ create_box_plots files c = .ok none) ∧
    (∀ k content, presentFiles files = [(k, content)] →
      plot_with_stats files c tns = .ok [(LABELS k, mean (seriesWindow content c))] ∧
      create_box_plots files c = .ok none) := by
  have hplot := plot_with_stats_ok files c tns hv
  have hbox := boxData_ok files c hv
  constructor
  · intro h0
    have he : presentFiles files = [] := List.length_eq_zero.mp h0
    refine ⟨by rw [hplot, he]; rfl, ?_⟩
    simp only [create_box_plots, hbox, he]
    rfl
  · intro k content hone
    refine ⟨by rw [hplot, hone]; rfl, ?_⟩
    simp only [create_box_plots, hbox, hone]
    rfl

/-- Witness for C6: one present series (the ten-row file); its mean is reported
and no test is run. -/
theorem few_present_series_check :
    (([("apo", none), ("test", some tenRowFile)] : FilesDict).all validEntry = true) ∧
    plot_with_stats [("apo", none), ("test", some tenRowFile)] 10 true =
      .ok [(LABELS "test", mean (seriesWindow tenRowFile 10))] ∧
    create_box_plots [("apo", none), ("test", some tenRowFile)] 10 = .ok none := by
  have hv : ([("apo", none), ("test", some tenRowFile)] : FilesDict).all validEntry = true := by
    with_unfolding_all rfl
  have h := (few_present_series [("apo", none), ("test", some tenRowFile)] 10 true hv).2
      "test" tenRowFile (by with_unfolding_all rfl)
  exact ⟨hv, h.1, h.2⟩

/-- Claim C1: with at least two present series the summarizer runs the single
test `ttest_ind(data_list[1], data_list[0])` — the second present series' window
as first sample, the first present series' window as second sample — and its
result is the (statistic, two-tailed p-value) pair. -/
theorem create_box_plots_first_two_series (files : FilesDict) (c : ℚ)
    (hv : files.all validEntry = true) (h2 : 2 ≤ (presentFiles files).length) :
    create_box_plots files c =
      .ok (some (ttest_ind (seriesWindow ((presentFiles files).getD 1 ("", [])).2 c)
                           (seriesWindow ((presentFiles files).getD 0 ("", [])).2 c))) := by
  have hbox := boxData_ok files c hv
  have e1 : ((presentFiles files).map (fun q => seriesWindow q.2 c)).getD 1 [] =
      seriesWindow ((presentFiles files).getD 1 ("", [])).2 c :=
    getD_map (fun q => seriesWindow q.2 c) ("", []) [] (presentFiles files) 1 (by omega)
  have e0 : ((presentFiles files).map (fun q => seriesWindow q.2 c)).getD 0 [] =
      seriesWindow ((presentFiles files).getD 0 ("", [])).2 c :=
    getD_map (fun q => seriesWindow q.2 c) ("", []) [] (presentFiles files) 0 (by omega)
  simp only [create_box_plots, hbox]
  rw [if_pos (by simpa using h2), e1, e0]

/-- Witness for C1 at the two-present-series dict `pairFiles` with factor 1. -/
theorem create_box_plots_first_two_series_check :
    (pairFiles.all validEntry = true) ∧ 2 ≤ (presentFiles pairFiles).length ∧
    create_box_plots pairFiles 1 =
      .ok (some (ttest_ind (seriesWindow ((presentFiles pairFiles).getD 1 ("", [])).2 1)
                           (seriesWindow ((presentFiles pairFiles).getD 0 ("", [])).2 1))) :=
  ⟨by with_unfolding_all rfl, by decide,
    create_box_plots_first_two_series pairFiles 1 (by with_unfolding_all rfl) (by decide)⟩

/-- Claim C8: on the two present series with windows `[1,1,1,1]` and `[5,5,5,5]`
the test run by the summarizer is `ttest_ind([5,5,5,5], [1,1,1,1])`, whose
two-tailed p-value is 0 < 0.05, hence flagged significant. -/
theorem ttest_flags_separated_distributions :
    create_box_plots pairFiles 1 = .ok (some (ttest_ind [5, 5, 5, 5] [1, 1, 1, 1])) ∧
    (ttest_ind [5, 5, 5, 5] [1, 1, 1, 1]).2 = PyVal.fin 0 ∧
    significant (ttest_ind [5, 5, 5, 5] [1, 1, 1, 1]).2 := by
  have hp : (ttest_ind [5, 5, 5, 5] [1, 1, 1, 1]).2 = PyVal.fin 0 := by
    have hd : pooledDSq [5, 5, 5, 5] [1, 1, 1, 1] = 0 := by with_unfolding_all rfl
    have hm : ¬ (mean [5, 5, 5, 5] = mean [1, 1, 1, 1]) := by with_unfolding_all decide
    have hlt : mean [1, 1, 1, 1] < mean [5, 5, 5, 5] := by with_unfolding_all decide
    simp only [ttest_ind]
    rw [if_pos hd, if_neg hm, if_pos hlt]
  refine ⟨?_, hp, ?_⟩
  · with_unfolding_all rfl
  · rw [hp]
    show (0 : ℝ) < 0.05
    norm_num

end MDA
